import Mathlib

/-!
Verification of the turn-orchestration engine of `src/main.py` (the "Riya"
voice screening agent): the dialogue state machine `get_reply`, the answer
quality gate `check_story_quality`, and the webhook turn pipeline
(`twilio_webhook`), shallowly embedded as executable Lean definitions.
-/

/-- The `ConversationState` enumeration of `src/main.py` (lines 45-56). -/
inductive ConversationState where
  | greeting
  | interest_check
  | experience_check
  | fresher_qualification
  | exp_details
  | customer_story
  | customer_retry
  | festival_story
  | festival_retry
  | completed
  | rejected
  deriving DecidableEq, Repr

/-- The mutable per-call `SessionData` record of `src/main.py` (lines 58-66).
The `answers` dict is modelled as a finite map `String → Option String`. -/
structure SessionData where
  conversation : List String
  state : ConversationState
  candidate_type : Option String
  retry_count : Nat
  answers : String → Option String
  phone_number : Option String
  current_audio_url : Option String

/-- `SessionData.__init__`: a fresh session (state GREETING, retry count 0,
no answers). -/
def SessionData.init (phone : Option String) : SessionData :=
  { conversation := []
    state := ConversationState.greeting
    candidate_type := none
    retry_count := 0
    answers := fun _ => none
    phone_number := phone
    current_audio_url := none }

/-- Python dict assignment `answers[k] = v`. -/
def setAns (a : String → Option String) (k v : String) : String → Option String :=
  fun q => if q = k then some v else a q

/-- Split a character list at every character satisfying `p`, keeping empty
fragments (the semantics of Python `re.split` over a single-character class,
and of `str.split(sep)`). -/
def splitChars (p : Char → Bool) : List Char → List (List Char)
  | [] => [[]]
  | c :: cs =>
      if p c then [] :: splitChars p cs
      else
        match splitChars p cs with
        | [] => [[c]]
        | g :: gs => (c :: g) :: gs

/-- Python `str.strip()` on a character list: drop leading and trailing
whitespace. -/
def pyStripChars (cs : List Char) : List Char :=
  ((cs.dropWhile Char.isWhitespace).reverse.dropWhile Char.isWhitespace).reverse

/-- Python `str.strip()`. -/
def pyStrip (s : String) : String :=
  (pyStripChars s.toList).asString

/-- Python `str.lower()` (ASCII case folding). -/
def pyLower (s : String) : String :=
  (s.toList.map Char.toLower).asString

/-- Bool-valued test that `n` is a leading segment of `h` (character lists). -/
def strStarts : List Char → List Char → Bool
  | [], _ => true
  | _ :: _, [] => false
  | a :: as, b :: bs => a == b && strStarts as bs

/-- Bool-valued test that `n` occurs contiguously inside `h` (character lists). -/
def strHas (n : List Char) : List Char → Bool
  | [] => n.isEmpty
  | b :: bs => strStarts n (b :: bs) || strHas n bs

/-- Python `needle in haystack` on strings: raw substring containment. -/
def pyContains (haystack needle : String) : Bool :=
  strHas needle.toList haystack.toList

/-- Python `any(word in s for word in ws)`. -/
def containsAny (s : String) (ws : List String) : Bool :=
  ws.any (fun w => pyContains s w)

/-- Negative keywords of the INTEREST_CHECK branch (line 114). -/
def negWords : List String := ["no", "not", "nah", "nope"]

/-- Affirmative keywords of the INTEREST_CHECK branch (line 116). -/
def yesWords : List String := ["yes", "yeah", "sure", "interested", "ok"]

/-- Fresher keywords of the EXPERIENCE_CHECK branch (line 123). -/
def fresherWords : List String := ["fresher", "fresh", "student"]

/-- Experienced keywords of the EXPERIENCE_CHECK branch (line 127). -/
def expWords : List String := ["experience", "experienced", "worked"]

/-- The sentence fragments of `check_story_quality` (lines 101-102):
`re.split(r'[.!?]+', text)` followed by `[s.strip() for s in sentences if s.strip()]`.
Splitting at every single terminator character instead of at maximal runs
only introduces extra empty fragments, which the very next filter discards,
so the two give the same list of kept fragments. -/
def sentencesOf (text : String) : List String :=
  (((splitChars (fun c => c == '.' || c == '!' || c == '?') text.toList).map
      (fun f => (pyStripChars f).asString)).filter (fun s => s ≠ ""))

/-- Python `text.split()` (line 103): whitespace-delimited words, empties dropped. -/
def wordsOf (text : String) : List String :=
  ((splitChars Char.isWhitespace text.toList).filter (fun w => !w.isEmpty)).map
    List.asString

/-- `check_story_quality` (lines 100-103): at least 8 sentences or at least
50 whitespace-delimited words. -/
def check_story_quality (text : String) : Bool :=
  decide (8 ≤ (sentencesOf text).length) || decide (50 ≤ (wordsOf text).length)

def greetingLine : String :=
  "Hi, this is Riya from Futuresoft Consultancy. We are hiring voice and chat profiles for companies like British Telecom, Teleperformance, and Wipro. Are you interested?"

def declineLine : String :=
  "I understand. Thank you for your time. Have a great day!"

def expCheckLine : String :=
  "We will surely help you with the same. Could you please confirm me if you are Fresher OR Experienced?"

def interestRepromptLine : String :=
  "Could you please confirm if you are interested? Just say Yes or No."

def fresherQualLine : String :=
  "Now, what\x27s your highest qualification like Graduate, Undergraduate, or Graduation drop-out?"

def expDetailsLine : String :=
  "Now, please confirm your highest qualification and experience. Mention your job responsibility part clearly."

def expRepromptLine : String :=
  "Could you please clarify - are you a Fresher or Experienced?"

def customerStoryLine : String :=
  "That was very impressive. Could you please speak about any memorable interaction with customer within 10 to 12 sentences. You can start with, \x27Once a customer called me for issue related to...\x27 And your time starts now."

def festivalStoryLine : String :=
  "Acknowledgment to statement. Could you please speak about any latest festival you celebrated like Diwali, Holi, Christmas or Eid in 10 to 12 sentences. Start with, \x27I celebrated my last Diwali along with family...\x27 And your time starts now."

def rejectionLine : String :=
  "Sorry, we will not be able to help you with job as we hire candidates with good communication skills only."

def customerRetryLine : String :=
  "Sorry, you need to speak only 10 to 12 sentences on this topic. It can be done within 15 seconds only. Please speak on this topic now."

def festivalRetryLine : String :=
  "Sorry, please speak clearly about the festival celebration for 10 to 12 sentences to proceed."

def completedLine : String :=
  "That was amazing, now one of our HR Recruiter will connect you for your further interview process."

def closingLine : String :=
  "Thank you for your time. Have a great day!"

/-- `get_reply(session, user_input)` (lines 105-197), returning the mutated
session together with the reply text.  The Python function mutates `session`
in place and returns only the reply; here the mutation is made explicit.
The final `return "I\x27m sorry, could you please repeat that?"` at line 197 is
unreachable because the `ConversationState` enumeration is exhaustively
matched above it, so it has no counterpart in this total match. -/
def get_reply (session : SessionData) (user_input : String) : SessionData × String :=
  let user_lower := pyStrip (pyLower user_input)
  match session.state with
  | ConversationState.greeting =>
      ({ session with state := ConversationState.interest_check }, greetingLine)
  | ConversationState.interest_check =>
      if containsAny user_lower negWords then
        (session, declineLine)
      else if containsAny user_lower yesWords then
        ({ session with state := ConversationState.experience_check }, expCheckLine)
      else
        (session, interestRepromptLine)
  | ConversationState.experience_check =>
      if containsAny user_lower fresherWords then
        ({ session with candidate_type := some "fresher",
                        state := ConversationState.fresher_qualification }, fresherQualLine)
      else if containsAny user_lower expWords then
        ({ session with candidate_type := some "experienced",
                        state := ConversationState.exp_details }, expDetailsLine)
      else
        (session, expRepromptLine)
  | ConversationState.fresher_qualification =>
      ({ session with answers := setAns session.answers "qualification" user_input,
                      state := ConversationState.customer_story }, customerStoryLine)
  | ConversationState.exp_details =>
      ({ session with answers := setAns session.answers "experience" user_input,
                      state := ConversationState.customer_story }, customerStoryLine)
  | ConversationState.customer_story =>
      if check_story_quality user_input then
        ({ session with answers := setAns session.answers "customer_story" user_input,
                        state := ConversationState.festival_story }, festivalStoryLine)
      else
        let rc := session.retry_count + 1
        if 2 ≤ rc then
          ({ session with retry_count := rc, state := ConversationState.rejected }, rejectionLine)
        else
          ({ session with retry_count := rc, state := ConversationState.customer_retry },
           customerRetryLine)
  | ConversationState.customer_retry =>
      if check_story_quality user_input then
        ({ session with answers := setAns session.answers "customer_story" user_input,
                        state := ConversationState.festival_story }, festivalStoryLine)
      else
        ({ session with state := ConversationState.rejected }, rejectionLine)
  | ConversationState.festival_story =>
      if check_story_quality user_input then
        ({ session with answers := setAns session.answers "festival" user_input,
                        state := ConversationState.completed }, completedLine)
      else
        let rc := session.retry_count + 1
        if 2 ≤ rc then
          ({ session with retry_count := rc, state := ConversationState.rejected }, rejectionLine)
        else
          ({ session with retry_count := rc, state := ConversationState.festival_retry },
           festivalRetryLine)
  | ConversationState.festival_retry =>
      if check_story_quality user_input then
        ({ session with answers := setAns session.answers "festival" user_input,
                        state := ConversationState.completed }, completedLine)
      else
        ({ session with state := ConversationState.rejected }, rejectionLine)
  | ConversationState.rejected => (session, closingLine)
  | ConversationState.completed => (session, closingLine)

/-- Outcome of the CambAI HTTP request inside `generate_tts` (lines 86-98):
either a response with some status code, or a raised exception (network
error, timeout, ...) caught by the `except` clause. -/
inductive TtsOutcome where
  | httpResponse (status_code : Nat)
  | raised
  deriving DecidableEq, Repr

/-- `generate_tts` (lines 68-98): on a 200 response the audio is written and
the public URL `{PUBLIC_URL}/audio/{audio_id}` is returned; any other status
code returns `None` (line 95), and any exception returns `None` (lines
96-98).  The nondeterministically generated `audio_id`
(`f"{session_id}_{uuid...}.wav"`) is abstracted as a parameter. -/
def generate_tts (outcome : TtsOutcome) (public_url audio_id : String) : Option String :=
  match outcome with
  | TtsOutcome.httpResponse code =>
      if code = 200 then some (public_url ++ "/audio/" ++ audio_id) else none
  | TtsOutcome.raised => none

def emptyRetryLine : String :=
  "Sorry, you need to speak on this topic. Please try now."

def didntCatchLine : String :=
  "I didn\x27t catch that. Could you please speak up?"

/-- The reply-computation step of `twilio_webhook` (lines 308-324): an empty
or whitespace-only transcript (`not user_input or not user_input.strip()`,
equivalently `user_input.strip() == ""`) is handled by the orchestrator
itself when the session is mid-narrative-question, re-implementing the
retry/reject counting; otherwise an empty transcript yields a generic
prompt without touching the state machine; a non-empty transcript is passed
to `get_reply`. -/
def webhookReply (session : SessionData) (user_input : String) : SessionData × String :=
  if pyStrip user_input = "" then
    if session.state = ConversationState.customer_story ∨
        session.state = ConversationState.festival_story then
      let rc := session.retry_count + 1
      if 2 ≤ rc then
        ({ session with retry_count := rc, state := ConversationState.rejected }, rejectionLine)
      else if session.state = ConversationState.customer_story then
        ({ session with retry_count := rc, state := ConversationState.customer_retry },
         emptyRetryLine)
      else
        ({ session with retry_count := rc, state := ConversationState.festival_retry },
         emptyRetryLine)
    else
      (session, didntCatchLine)
  else
    get_reply session user_input

/-- The TwiML verbs `twilio_webhook` can emit (lines 342-363). -/
inductive TwimlVerb where
  | playUrl (url : String)
  | sayText (text : String) (voice : String) (language : String)
  | recordNext (action : String) (max_length : Nat) (play_beep : Bool)
      (trimMode : String) (timeoutSecs : Nat)
  | hangup
  deriving DecidableEq, Repr

/-- The `record` action URL (line 355): the same webhook endpoint with the
same session id. -/
def webhookUrl (public_url sid : String) : String :=
  public_url ++ "/twilio-webhook?session_id=" ++ sid

/-- The TwiML assembly of `twilio_webhook` (lines 342-363): play the
generated audio if synthesis succeeded, otherwise fall back to Twilio
native `say` of the same reply text; then append a `record` directive
pointing back at the webhook when the session is not terminal, else
`hangup`. -/
def buildTwiml (public_url sid : String) (audio_url : Option String) (reply : String)
    (st : ConversationState) : List TwimlVerb :=
  (match audio_url with
   | some u => [TwimlVerb.playUrl u]
   | none => [TwimlVerb.sayText reply "Polly.Joanna" "en-US"]) ++
  (if ¬ (st = ConversationState.rejected ∨ st = ConversationState.completed) then
    [TwimlVerb.recordNext (webhookUrl public_url sid) 60 true "trim-silence" 5]
  else
    [TwimlVerb.hangup])

/-- One full known-session webhook turn (lines 308-368): compute the reply,
attempt synthesis (line 336, guarded by `if reply:`), cache the audio URL,
and assemble the TwiML response against the post-turn state. -/
def webhookTurn (public_url sid : String) (session : SessionData) (user_input : String)
    (tts : TtsOutcome) (audio_id : String) : SessionData × List TwimlVerb :=
  let s2 := (webhookReply session user_input).1
  let reply := (webhookReply session user_input).2
  let audio_url := if reply = "" then none else generate_tts tts public_url audio_id
  let s3 := if reply = "" then s2 else { s2 with current_audio_url := audio_url }
  (s3, buildTwiml public_url sid audio_url reply s3.state)

/-- The session produced by one `get_reply` step. -/
def stepSession (s : SessionData) (i : String) : SessionData :=
  (get_reply s i).1

/-- The session after feeding a list of inputs through `get_reply`. -/
def runSession (s : SessionData) : List String → SessionData
  | [] => s
  | i :: is => runSession (stepSession s i) is

/-- The states strictly after the starting one along a run of `get_reply`. -/
def runStatesAux (s : SessionData) : List String → List ConversationState
  | [] => []
  | i :: is => (stepSession s i).state :: runStatesAux (stepSession s i) is

/-- The full state trace of a run of `get_reply`, starting state included. -/
def runStates (s : SessionData) (l : List String) : List ConversationState :=
  s.state :: runStatesAux s l

/-- Linearisation of the section-4.1 progression
GREETING → INTEREST_CHECK → EXPERIENCE_CHECK → FRESHER_QUALIFICATION /
EXP_DETAILS → CUSTOMER_STORY (→ CUSTOMER_RETRY) → FESTIVAL_STORY
(→ FESTIVAL_RETRY) → COMPLETED / REJECTED, with the retry stages placed
between the question they follow and the next question, and the terminal
states last.  "Never moves backward in the progression" is "`rank` never
decreases". -/
def rank : ConversationState → Nat
  | ConversationState.greeting => 0
  | ConversationState.interest_check => 1
  | ConversationState.experience_check => 2
  | ConversationState.fresher_qualification => 3
  | ConversationState.exp_details => 4
  | ConversationState.customer_story => 5
  | ConversationState.customer_retry => 6
  | ConversationState.festival_story => 7
  | ConversationState.festival_retry => 8
  | ConversationState.completed => 9
  | ConversationState.rejected => 10

/-- How many times the directed edge `a → b` is traversed along a state
trace (number of adjacent pairs equal to `(a, b)`). -/
def edgeCount (a b : ConversationState) : List ConversationState → Nat
  | x :: y :: rest => (if x = a ∧ y = b then 1 else 0) + edgeCount a b (y :: rest)
  | _ => 0

/-- Every adjacent pair of the trace either repeats a state or strictly
increases `rank`. -/
def RanksOk : List ConversationState → Prop
  | x :: y :: rest => (x = y ∨ rank x < rank y) ∧ RanksOk (y :: rest)
  | _ => True

theorem get_reply_ne_empty (s : SessionData) (i : String) : (get_reply s i).2 ≠ "" := by
  cases hs : s.state <;> simp only [get_reply, hs] <;> (repeat' split) <;>
    simp [greetingLine, declineLine, expCheckLine, interestRepromptLine, fresherQualLine,
      expDetailsLine, expRepromptLine, customerStoryLine, festivalStoryLine, rejectionLine,
      customerRetryLine, festivalRetryLine, completedLine, closingLine]

theorem webhookReply_ne_empty (s : SessionData) (i : String) : (webhookReply s i).2 ≠ "" := by
  simp only [webhookReply]
  (repeat' split) <;>
    simp [emptyRetryLine, didntCatchLine, rejectionLine, get_reply_ne_empty]

/-- An eight-sentence transcript (fewer than 50 words). -/
def eightSentStory : String := "One. Two. Three. Four. Five. Six. Seven. Eight."

/-- A fifty-word transcript with no sentence terminators. -/
def fiftyWordStory : String :=
  "w w w w w w w w w w w w w w w w w w w w w w w w w w w w w w w w w w w w w w w w w w w w w w w w w w"

/-- A transcript with exactly 7 sentences and exactly 49 words. -/
def shortAnswerStory : String :=
  "a b c d e f g. a b c d e f g. a b c d e f g. a b c d e f g. a b c d e f g. a b c d e f g. a b c d e f g."

/-- Claim C2: `check_story_quality` splits the text on sentence terminators,
discards fragments that are empty after trimming, and accepts exactly when
the sentence count is at least 8 or the whitespace-delimited word count is
at least 50; a transcript with exactly 8 sentences or exactly 50 words
passes, and one with 7 sentences and 49 words fails. -/
theorem c2_quality_gate :
    (∀ t : String, check_story_quality t = true ↔
        (8 ≤ (sentencesOf t).length ∨ 50 ≤ (wordsOf t).length)) ∧
    (∀ t : String, (sentencesOf t).length = 8 → check_story_quality t = true) ∧
    (∀ t : String, (wordsOf t).length = 50 → check_story_quality t = true) ∧
    (∀ t : String, (sentencesOf t).length = 7 → (wordsOf t).length = 49 →
        check_story_quality t = false) := by
  refine ⟨fun t => ?_, fun t h => ?_, fun t h => ?_, fun t h1 h2 => ?_⟩ <;>
    simp [check_story_quality] <;> omega

/-- Witness for C2 at the three boundary transcripts. -/
theorem c2_quality_gate_witness :
    ((sentencesOf eightSentStory).length = 8 ∧ check_story_quality eightSentStory = true) ∧
    ((wordsOf fiftyWordStory).length = 50 ∧ check_story_quality fiftyWordStory = true) ∧
    ((sentencesOf shortAnswerStory).length = 7 ∧ (wordsOf shortAnswerStory).length = 49 ∧
      check_story_quality shortAnswerStory = false) :=
  ⟨⟨by decide, c2_quality_gate.2.1 eightSentStory (by decide)⟩,
   ⟨by decide, c2_quality_gate.2.2.1 fiftyWordStory (by decide)⟩,
   ⟨by decide, by decide, c2_quality_gate.2.2.2 shortAnswerStory (by decide) (by decide)⟩⟩

/-- Claim C4: for every session whose state is not COMPLETED and not
REJECTED, `get_reply` is total on every input (it is a total Lean function)
and returns a non-empty prompt string. -/
theorem c4_total_nonempty_prompt (s : SessionData) (i : String)
    (h1 : s.state ≠ ConversationState.completed)
    (h2 : s.state ≠ ConversationState.rejected) :
    (get_reply s i).2 ≠ "" :=
  get_reply_ne_empty s i

/-- Witness for C4 at a fresh session and the empty input. -/
theorem c4_total_nonempty_prompt_witness :
    (SessionData.init none).state ≠ ConversationState.completed ∧
    (SessionData.init none).state ≠ ConversationState.rejected ∧
    (get_reply (SessionData.init none) "").2 ≠ "" :=
  ⟨by decide, by decide,
   c4_total_nonempty_prompt (SessionData.init none) "" (by decide) (by decide)⟩

/-- Claim C5: once the state is COMPLETED or REJECTED, `get_reply` on any
input returns the fixed closing line and leaves every session field
unchanged. -/
theorem c5_terminal_idempotent (s : SessionData) (i : String)
    (h : s.state = ConversationState.completed ∨ s.state = ConversationState.rejected) :
    get_reply s i = (s, closingLine) := by
  rcases h with h | h <;> simp [get_reply, h]

/-- A session that has reached COMPLETED. -/
def sessDone : SessionData :=
  { SessionData.init none with state := ConversationState.completed }

/-- Witness for C5: a COMPLETED session is untouched by a further input. -/
theorem c5_terminal_idempotent_witness :
    get_reply sessDone "anything at all" = (sessDone, closingLine) :=
  c5_terminal_idempotent sessDone "anything at all" (Or.inl rfl)

/-- A session sitting at CUSTOMER_RETRY with a large retry count. -/
def sessRetry5 : SessionData :=
  { SessionData.init none with state := ConversationState.customer_retry, retry_count := 5 }

/-- Claim C9: at CUSTOMER_RETRY every input failing the quality gate moves
the session to REJECTED with the rejection line, with no retry-count
threshold consulted (the `retry_count` field is not even read or written on
this path). -/
theorem c9_retry_reject_unconditional (s : SessionData) (i : String)
    (hs : s.state = ConversationState.customer_retry)
    (hq : check_story_quality i = false) :
    get_reply s i = ({ s with state := ConversationState.rejected }, rejectionLine) := by
  simp [get_reply, hs, hq]

/-- Witness for C9 at retry count 5, showing the rejection is independent of
the counter value. -/
theorem c9_retry_reject_unconditional_witness :
    get_reply sessRetry5 "hello" =
      ({ sessRetry5 with state := ConversationState.rejected }, rejectionLine) :=
  c9_retry_reject_unconditional sessRetry5 "hello" rfl (by decide)

/-- A session sitting at INTEREST_CHECK. -/
def sessInterest : SessionData :=
  { SessionData.init none with state := ConversationState.interest_check }

/-- Claim C10: at INTEREST_CHECK the negative keyword set is tested first,
with raw substring containment on the lower-cased trimmed input: any input
containing a negative keyword as a substring yields the decline line with
the state unchanged, even when an affirmative keyword is also present
("yes, not a problem"), and "no" inside another word ("I know") declines. -/
theorem c10_negative_first_substring :
    (∀ (s : SessionData) (i : String), s.state = ConversationState.interest_check →
        containsAny (pyStrip (pyLower i)) negWords = true →
        get_reply s i = (s, declineLine)) ∧
    (get_reply sessInterest "yes, not a problem").1 = sessInterest ∧
    (get_reply sessInterest "yes, not a problem").2 = declineLine ∧
    (get_reply sessInterest "I know").2 = declineLine := by
  refine ⟨fun s i hs hneg => ?_, rfl, rfl, rfl⟩
  simp [get_reply, hs, hneg]

/-- Witness for C10 at the input "yes, not a problem". -/
theorem c10_negative_first_substring_witness :
    containsAny (pyStrip (pyLower "yes, not a problem")) negWords = true ∧
    get_reply sessInterest "yes, not a problem" = (sessInterest, declineLine) :=
  ⟨by decide,
   c10_negative_first_substring.1 sessInterest "yes, not a problem" rfl (by decide)⟩

/-- A failing narrative answer: 1 sentence, 2 words. -/
def failStory : String := "Too short."

/-- A session sitting at CUSTOMER_STORY. -/
def sessStory : SessionData :=
  { SessionData.init none with state := ConversationState.customer_story }

/-- A concrete run reaching CUSTOMER_RETRY with one retry consumed:
greeting turn, "yes", "fresher", a qualification, then one failed customer
story. -/
def c1Inputs : List String := ["", "yes", "fresher", "BA", failStory]

/-- The session after `c1Inputs`. -/
def sessAfterRetry : SessionData := runSession (SessionData.init none) c1Inputs

/-- Counterexample to claim C1: after a failed customer story
(`retry_count = 1`, state CUSTOMER_RETRY), a passing answer moves to
FESTIVAL_STORY but leaves `retry_count` at 1 instead of clearing it to 0,
and the very first festival-story failure then goes straight to REJECTED:
the festival question gets no retry of its own. -/
theorem c1_counterexample :
    sessAfterRetry.state = ConversationState.customer_retry ∧
    sessAfterRetry.retry_count = 1 ∧
    check_story_quality fiftyWordStory = true ∧
    (get_reply sessAfterRetry fiftyWordStory).1.state = ConversationState.festival_story ∧
    (get_reply sessAfterRetry fiftyWordStory).1.retry_count = 1 ∧
    (get_reply (get_reply sessAfterRetry fiftyWordStory).1 failStory).1.state =
      ConversationState.rejected :=
  ⟨rfl, rfl, by decide, rfl, rfl, rfl⟩

/-- Claim C1 as amended: on a quality-gate pass at any narrative-question
state the answer is recorded and the stage advances (FESTIVAL_STORY after
the customer story, COMPLETED after the festival story), but the retry
count is NOT cleared: `retry_count` is carried over unchanged, so retries
are shared between the two narrative questions rather than counted per
question. -/
theorem c1_amended_pass_keeps_retry_count (s : SessionData) (i : String)
    (hq : check_story_quality i = true) :
    ((s.state = ConversationState.customer_story ∨
        s.state = ConversationState.customer_retry) →
      (get_reply s i).1.state = ConversationState.festival_story ∧
      (get_reply s i).1.retry_count = s.retry_count ∧
      (get_reply s i).1.answers "customer_story" = some i) ∧
    ((s.state = ConversationState.festival_story ∨
        s.state = ConversationState.festival_retry) →
      (get_reply s i).1.state = ConversationState.completed ∧
      (get_reply s i).1.retry_count = s.retry_count ∧
      (get_reply s i).1.answers "festival" = some i) := by
  constructor <;> rintro (hs | hs) <;> simp [get_reply, hs, hq, setAns]

/-- Witness for the amended C1 at a concrete passing story. -/
theorem c1_amended_pass_keeps_retry_count_witness :
    check_story_quality fiftyWordStory = true ∧
    (get_reply sessStory fiftyWordStory).1.state = ConversationState.festival_story ∧
    (get_reply sessStory fiftyWordStory).1.retry_count = sessStory.retry_count ∧
    (get_reply sessStory fiftyWordStory).1.answers "customer_story" = some fiftyWordStory :=
  ⟨by decide,
   ((c1_amended_pass_keeps_retry_count sessStory fiftyWordStory (by decide)).1 (Or.inl rfl)).1,
   ((c1_amended_pass_keeps_retry_count sessStory fiftyWordStory (by decide)).1 (Or.inl rfl)).2.1,
   ((c1_amended_pass_keeps_retry_count sessStory fiftyWordStory (by decide)).1 (Or.inl rfl)).2.2⟩

/-- Claim C6: on an empty or whitespace-only transcript, the webhook applies
the retry/reject counting itself when the session is at CUSTOMER_STORY or
FESTIVAL_STORY (increment `retry_count`; corresponding RETRY state while
the count stays below 2, else REJECTED with the rejection line), and for
every other state returns the generic prompt with the session unchanged and
without invoking `get_reply`. -/
theorem c6_empty_transcript_policy (s : SessionData) (i : String)
    (he : pyStrip i = "") :
    ((s.state = ConversationState.customer_story ∨
        s.state = ConversationState.festival_story) →
      (webhookReply s i).1.retry_count = s.retry_count + 1 ∧
      (if 2 ≤ s.retry_count + 1 then
        (webhookReply s i).1.state = ConversationState.rejected ∧
        (webhookReply s i).2 = rejectionLine
      else
        (webhookReply s i).1.state =
          (if s.state = ConversationState.customer_story then
            ConversationState.customer_retry
          else ConversationState.festival_retry) ∧
        (webhookReply s i).2 = emptyRetryLine)) ∧
    (s.state ≠ ConversationState.customer_story →
      s.state ≠ ConversationState.festival_story →
      webhookReply s i = (s, didntCatchLine)) := by
  refine ⟨fun hmem => ?_, fun h1 h2 => ?_⟩
  · rcases hmem with hs | hs <;>
      by_cases hrc : 2 ≤ s.retry_count + 1 <;>
      simp [webhookReply, he, hs, hrc]
  · simp [webhookReply, he, h1, h2]

/-- Witness for C6: a whitespace-only turn at CUSTOMER_STORY, and one at a
non-narrative state. -/
theorem c6_empty_transcript_policy_witness :
    ((webhookReply sessStory "   ").1.retry_count = sessStory.retry_count + 1 ∧
      (if 2 ≤ sessStory.retry_count + 1 then
        (webhookReply sessStory "   ").1.state = ConversationState.rejected ∧
        (webhookReply sessStory "   ").2 = rejectionLine
      else
        (webhookReply sessStory "   ").1.state =
          (if sessStory.state = ConversationState.customer_story then
            ConversationState.customer_retry
          else ConversationState.festival_retry) ∧
        (webhookReply sessStory "   ").2 = emptyRetryLine)) ∧
    webhookReply sessInterest "   " = (sessInterest, didntCatchLine) :=
  ⟨(c6_empty_transcript_policy sessStory "   " (by decide)).1 (Or.inl rfl),
   (c6_empty_transcript_policy sessInterest "   " (by decide)).2 (by decide) (by decide)⟩

theorem step_state_mono (s : SessionData) (i : String) :
    (stepSession s i).state = s.state ∨ rank s.state < rank (stepSession s i).state := by
  cases hs : s.state <;> simp only [stepSession, get_reply, hs] <;> (repeat' split) <;>
    simp [rank, hs]

theorem runStatesAux_ranksOk (l : List String) :
    ∀ s : SessionData, RanksOk (s.state :: runStatesAux s l) := by
  induction l with
  | nil => intro s; simp [runStatesAux, RanksOk]
  | cons i is ih =>
      intro s
      simp only [runStatesAux, RanksOk]
      exact ⟨(step_state_mono s i).imp Eq.symm id, ih (stepSession s i)⟩

theorem ranksOk_le : ∀ (l : List ConversationState) (x : ConversationState),
    RanksOk (x :: l) → ∀ y ∈ l, rank x ≤ rank y := by
  intro l
  induction l with
  | nil => intro x _ y hy; cases hy
  | cons z rest ih =>
      intro x h y hy
      have h' : (x = z ∨ rank x < rank z) ∧ RanksOk (z :: rest) := h
      have hxz : rank x ≤ rank z := by
        rcases h'.1 with rfl | hlt
        · exact le_refl _
        · exact le_of_lt hlt
      rcases List.mem_cons.mp hy with rfl | hy2
      · exact hxz
      · exact le_trans hxz (ih z h'.2 y hy2)

theorem edgeCount_zero_of_ne (a b : ConversationState) :
    ∀ l : List ConversationState, (∀ z ∈ l, z ≠ a) → edgeCount a b l = 0 := by
  intro l
  induction l with
  | nil => intro _; rfl
  | cons x t ih =>
      intro h
      cases t with
      | nil => rfl
      | cons y rest =>
          simp only [edgeCount]
          rw [if_neg (fun hc => (h x (List.mem_cons_self x _)) hc.1)]
          rw [ih (fun z hz => h z (List.mem_cons_of_mem x hz))]

theorem edgeCount_le_one (a b : ConversationState) (hne : a ≠ b) :
    ∀ l : List ConversationState, RanksOk l → edgeCount a b l ≤ 1 := by
  intro l
  induction l with
  | nil => intro _; simp [edgeCount]
  | cons x t ih =>
      intro h
      cases t with
      | nil => simp [edgeCount]
      | cons y rest =>
          have h' : (x = y ∨ rank x < rank y) ∧ RanksOk (y :: rest) := h
          by_cases hab : x = a ∧ y = b
          · have hlt : rank a < rank b := by
              rcases h'.1 with heq | hlt
              · exact absurd (hab.1 ▸ hab.2 ▸ heq) hne
              · rw [hab.1, hab.2] at hlt; exact hlt
            have h0 : edgeCount a b (y :: rest) = 0 := by
              apply edgeCount_zero_of_ne
              intro z hz
              rcases List.mem_cons.mp hz with rfl | hz2
              · rw [hab.2]; exact fun heq => hne heq.symm
              · have hyz : rank y ≤ rank z := ranksOk_le rest y h'.2 z hz2
                rw [hab.2] at hyz
                intro heq
                rw [heq] at hyz
                omega
            simp only [edgeCount, if_pos hab, h0]
            omega
          · simp only [edgeCount, if_neg hab]
            simpa using ih h'.2

theorem edgeCount_zero_of_not_step (a b : ConversationState)
    (hnab : ¬ (a = b ∨ rank a < rank b)) :
    ∀ l : List ConversationState, RanksOk l → edgeCount a b l = 0 := by
  intro l
  induction l with
  | nil => intro _; rfl
  | cons x t ih =>
      intro h
      cases t with
      | nil => rfl
      | cons y rest =>
          have h' : (x = y ∨ rank x < rank y) ∧ RanksOk (y :: rest) := h
          have hxy : ¬ (x = a ∧ y = b) := by
            rintro ⟨rfl, rfl⟩
            exact hnab h'.1
          simp only [edgeCount, if_neg hxy]
          rw [ih h'.2]

/-- Claim C3: every `get_reply` transition either stays in place or strictly
ascends `rank`, the linearisation of the section-4.1 progression (so the
state never moves backward), and along any run the revisit edges
CUSTOMER_STORY → CUSTOMER_RETRY and FESTIVAL_STORY → FESTIVAL_RETRY are
each traversed at most once while their reverses are never traversed at
all. -/
theorem c3_monotone_progression :
    (∀ (s : SessionData) (i : String),
        (get_reply s i).1.state = s.state ∨
          rank s.state < rank (get_reply s i).1.state) ∧
    (∀ (s : SessionData) (l : List String),
        edgeCount ConversationState.customer_story ConversationState.customer_retry
            (runStates s l) ≤ 1 ∧
        edgeCount ConversationState.customer_retry ConversationState.customer_story
            (runStates s l) = 0 ∧
        edgeCount ConversationState.festival_story ConversationState.festival_retry
            (runStates s l) ≤ 1 ∧
        edgeCount ConversationState.festival_retry ConversationState.festival_story
            (runStates s l) = 0) := by
  constructor
  · exact fun s i => step_state_mono s i
  · intro s l
    have hok : RanksOk (runStates s l) := runStatesAux_ranksOk l s
    refine ⟨edgeCount_le_one _ _ (by decide) _ hok,
      edgeCount_zero_of_not_step _ _ (by decide) _ hok,
      edgeCount_le_one _ _ (by decide) _ hok,
      edgeCount_zero_of_not_step _ _ (by decide) _ hok⟩

/-- Claim C7: for every known-session webhook turn, the emitted response
ends with the record-next-utterance directive (max length 60,
silence-trimmed, 5-second initial timeout) pointing back at the same
webhook endpoint with the same session id exactly when the post-turn state
is neither REJECTED nor COMPLETED, and ends with the hang-up directive
otherwise. -/
theorem c7_continuation_directive (pub sid : String) (s : SessionData) (i : String)
    (tts : TtsOutcome) (aid : String) :
    (((webhookTurn pub sid s i tts aid).2).getLast? =
        some (TwimlVerb.recordNext (webhookUrl pub sid) 60 true "trim-silence" 5) ↔
      ¬ ((webhookTurn pub sid s i tts aid).1.state = ConversationState.rejected ∨
          (webhookTurn pub sid s i tts aid).1.state = ConversationState.completed)) ∧
    (((webhookTurn pub sid s i tts aid).1.state = ConversationState.rejected ∨
        (webhookTurn pub sid s i tts aid).1.state = ConversationState.completed) →
      ((webhookTurn pub sid s i tts aid).2).getLast? = some TwimlVerb.hangup) := by
  have hne := webhookReply_ne_empty s i
  cases hau : generate_tts tts pub aid <;>
    by_cases hterm : (webhookReply s i).1.state = ConversationState.rejected ∨
        (webhookReply s i).1.state = ConversationState.completed <;>
    simp [webhookTurn, buildTwiml, hne, hau, hterm]

/-- Witness for C7: a mid-interview turn ends with the record directive and
a completed-session turn ends with hang-up. -/
theorem c7_continuation_directive_witness :
    ((webhookTurn "http://x" "sid1" sessInterest "yes" TtsOutcome.raised "a.wav").2).getLast? =
      some (TwimlVerb.recordNext (webhookUrl "http://x" "sid1") 60 true "trim-silence" 5) ∧
    ((webhookTurn "http://x" "sid1" sessDone "bye" TtsOutcome.raised "a.wav").2).getLast? =
      some TwimlVerb.hangup :=
  ⟨(c7_continuation_directive "http://x" "sid1" sessInterest "yes" TtsOutcome.raised "a.wav").1.mpr
      (by decide),
   (c7_continuation_directive "http://x" "sid1" sessDone "bye" TtsOutcome.raised "a.wav").2
      (by decide)⟩

/-- Claim C8: whenever synthesis fails (any non-200 status or a raised
exception, so `generate_tts` yields no audio URL), the turn still produces
a response whose first directive is Twilio-native speech of the same reply
text, and the response is never empty: a synthesis failure is absorbed, not
surfaced. -/
theorem c8_tts_fallback (pub sid : String) (s : SessionData) (i : String)
    (tts : TtsOutcome) (aid : String)
    (htts : tts ≠ TtsOutcome.httpResponse 200) :
    generate_tts tts pub aid = none ∧
    ((webhookTurn pub sid s i tts aid).2).head? =
      some (TwimlVerb.sayText ((webhookReply s i).2) "Polly.Joanna" "en-US") ∧
    (webhookTurn pub sid s i tts aid).2 ≠ [] := by
  have hne := webhookReply_ne_empty s i
  have hnone : generate_tts tts pub aid = none := by
    cases tts with
    | httpResponse c =>
        have hc : c ≠ 200 := fun h => htts (by rw [h])
        simp [generate_tts, hc]
    | raised => rfl
  refine ⟨hnone, ?_, ?_⟩ <;>
    by_cases hterm : (webhookReply s i).1.state = ConversationState.rejected ∨
        (webhookReply s i).1.state = ConversationState.completed <;>
    simp [webhookTurn, buildTwiml, hne, hnone, hterm]

/-- Witness for C8: a raised synthesis exception on a concrete turn. -/
theorem c8_tts_fallback_witness :
    TtsOutcome.raised ≠ TtsOutcome.httpResponse 200 ∧
    generate_tts TtsOutcome.raised "http://x" "a.wav" = none ∧
    ((webhookTurn "http://x" "sid1" sessInterest "yes" TtsOutcome.raised "a.wav").2).head? =
      some (TwimlVerb.sayText ((webhookReply sessInterest "yes").2) "Polly.Joanna" "en-US") ∧
    (webhookTurn "http://x" "sid1" sessInterest "yes" TtsOutcome.raised "a.wav").2 ≠ [] :=
  ⟨by decide,
   c8_tts_fallback "http://x" "sid1" sessInterest "yes" TtsOutcome.raised "a.wav" (by decide)⟩
